import Mathlib

/-!
# Verification of the hyperswitch payout validator and Helcim connector transformers

Shallow embedding of:
* `crates/router/src/core/payouts/validator.rs` (idempotent-creation guard), and
* `crates/router/src/connector/helcim/transformers.rs` (request/response
  transformers, status reconciliation matrix, correlation metadata),
with theorems settling the spec's claims about them.

Types and helper functions whose Rust definitions live outside the two
source files above (storage enums, `RouterData`, the `connector::utils`
helper traits, core utils) are modelled from the spec and marked as such
in their doc comments.
-/

namespace Hyperswitch

/-! ## Storage layer and API error model (payout validator) -/

/-- Modelled from the spec: the storage collaborator's error type.  The
validator only discriminates on `is_db_not_found` (a "not found" signal
versus a genuine backend error), mirroring
`err.current_context().is_db_not_found()` in `validator.rs`. -/
inductive StorageError where
  | ValueNotFound (entity : String)
  | DatabaseError (msg : String)
deriving DecidableEq, Repr

/-- Modelled from the spec: discriminates the "not found" signal from a
genuine backend error. -/
def StorageError.is_db_not_found : StorageError → Bool
  | .ValueNotFound _ => true
  | .DatabaseError _ => false

/-- Modelled from the spec: the stored payout record
(`{ payout_id, merchant_id, ... }`); only the identity fields matter to the
idempotent-creation guard. -/
structure Payouts where
  payout_id : String
  merchant_id : String
deriving DecidableEq, Repr

/-- Modelled from the spec: the payout-method data decrypted from the
locker; opaque to the validator. -/
structure PayoutMethodData where
  raw : String
deriving DecidableEq, Repr

/-- Modelled from the spec: the API error kinds the validator surfaces
(`errors::ApiErrorResponse`).  `change_context` replaces the current
context, so callers observe exactly one of these kinds. -/
inductive ApiErrorResponse where
  | InternalServerError
  | DuplicatePayout (payout_id : String)
  | InvalidDataFormat (field_name : String) (expected_format : String)
  | PayoutNotFound
deriving DecidableEq, Repr

/-- Mirrors `error_stack`'s `Report::change_context`: the new context
replaces the current one (the old context survives only as attached
history, which callers matching on the kind never see). -/
def changeContext {α : Type} (r : Except ApiErrorResponse α)
    (new : ApiErrorResponse) : Except ApiErrorResponse α :=
  match r with
  | .error _ => .error new
  | .ok a => .ok a

/-- Modelled from the spec: the payout-create request
(`payouts::PayoutCreateRequest`); the fields read by
`validate_create_request`. -/
structure PayoutCreateRequest where
  merchant_id : Option String
  customer_id : Option String
  payout_token : Option String
  payout_id : Option String
deriving DecidableEq, Repr

/-- Modelled from the spec: the external collaborators of
`validate_create_request`, passed explicitly (`AppState`/`StorageInterface`
and the locker).  `find_payout` is
`db.find_payout_by_merchant_id_payout_id(merchant_id, payout_id)`;
`locker_fetch` is `cards::get_payment_method_from_hs_locker` (arguments:
customer_id, merchant_id, payout_token); `parse_payout_method` is the
`parse_struct("PayoutMethodData")` step; `generate_uuid` is the fresh
identifier that `get_or_generate_uuid` produces when none is supplied. -/
structure ValidatorEnv where
  find_payout : String → String → Except StorageError Payouts
  locker_fetch : String → String → String → Except String String
  parse_payout_method : String → Option PayoutMethodData
  generate_uuid : String

/-- Modelled from the spec: "Resolve a payout_id: use caller-supplied value
if present, else generate a fresh unique identifier"
(`core_utils::get_or_generate_uuid`). -/
def get_or_generate_uuid (provided : Option String) (fresh : String) : String :=
  match provided with
  | some id => id
  | none => fresh

/-- `validate_uniqueness_of_payout_id_against_merchant_id`
(`validator.rs:21-51`): looks up `(merchant_id, payout_id)`; a "not found"
storage error yields `none` (eligible), any other storage error becomes
`InternalServerError`, and a returned record counts only when its stored
`payout_id` exactly equals the queried one. -/
def validate_uniqueness_of_payout_id_against_merchant_id
    (db : String → String → Except StorageError Payouts)
    (payout_id merchant_id : String) :
    Except ApiErrorResponse (Option Payouts) :=
  match db merchant_id payout_id with
  | .error err =>
      if err.is_db_not_found then
        .ok none
      else
        .error .InternalServerError
  | .ok payout =>
      if payout.payout_id = payout_id then
        .ok (some payout)
      else
        .ok none

/-- The payout-token arm of `validate_create_request`
(`validator.rs:77-98`): a locker failure becomes `PayoutNotFound`, an
unparseable stored method becomes `InternalServerError`. -/
def resolve_payout_method_data (env : ValidatorEnv)
    (customer_id merchant_id : String) :
    Option String → Except ApiErrorResponse (Option PayoutMethodData)
  | some payout_token =>
      match env.locker_fetch customer_id merchant_id payout_token with
      | .error _ => .error .PayoutNotFound
      | .ok pm =>
          match env.parse_payout_method pm with
          | none => .error .InternalServerError
          | some pm_parsed => .ok (some pm_parsed)
  | none => .ok none

/-- `validate_create_request` (`validator.rs:57-120`): checks the
caller-supplied merchant id, optionally resolves a payout token through the
locker, resolves the payout id, then runs the uniqueness check — whose
*entire* result is passed through
`.change_context(DuplicatePayout { payout_id })` before the final match. -/
def validate_create_request (env : ValidatorEnv) (merchant_account_id : String)
    (req : PayoutCreateRequest) :
    Except ApiErrorResponse (String × Option PayoutMethodData) :=
  let merchant_id := merchant_account_id
  -- Merchant ID
  let predicate := req.merchant_id.map (fun mid => mid != merchant_id)
  if predicate.getD false then
    .error (.InvalidDataFormat "merchant_id" "merchant_id from merchant account")
  else
    -- Payout token
    let customer_id := req.customer_id.getD ""
    match resolve_payout_method_data env customer_id merchant_id req.payout_token with
    | .error e => .error e
    | .ok payout_method_data =>
        -- Payout ID
        let payout_id := get_or_generate_uuid req.payout_id env.generate_uuid
        match changeContext
            (validate_uniqueness_of_payout_id_against_merchant_id
              env.find_payout payout_id merchant_id)
            (.DuplicatePayout payout_id) with
        | .error e => .error e
        | .ok (some _) => .error (.DuplicatePayout payout_id)
        | .ok none => .ok (payout_id, payout_method_data)

/-! ## Canonical enums and JSON envelope (Helcim connector) -/

/-- `HelcimPaymentStatus` (`transformers.rs:150-153`): the connector's raw
outcome vocabulary. -/
inductive HelcimPaymentStatus where
  | Approved
  | Declined
deriving DecidableEq, Repr

/-- `HelcimTransactionType` (`transformers.rs:157-162`): which payment
lifecycle operation a wire response belongs to. -/
inductive HelcimTransactionType where
  | Purchase
  | PreAuth
  | Capture
  | Verify
deriving DecidableEq, Repr

/-- `HelcimRefundTransactionType` (`transformers.rs:420-422`). -/
inductive HelcimRefundTransactionType where
  | Refund
deriving DecidableEq, Repr

/-- Modelled from the spec: the canonical payment lifecycle state
(`storage::enums::AttemptStatus`, defined outside the excerpt); the
variants relevant to this connector plus representative others. -/
inductive AttemptStatus where
  | Started
  | AuthenticationFailed
  | AuthenticationPending
  | AuthenticationSuccessful
  | Authorized
  | AuthorizationFailed
  | Charged
  | Authorizing
  | Voided
  | CaptureInitiated
  | CaptureFailed
  | PartialCharged
  | Unresolved
  | Pending
  | Failure
deriving DecidableEq, Repr

/-- Modelled from the spec: the canonical refund lifecycle state
(`storage::enums::RefundStatus`, defined outside the excerpt). -/
inductive RefundStatus where
  | Failure
  | ManualReview
  | Pending
  | Success
  | TransactionFailure
deriving DecidableEq, Repr

/-- Modelled from the spec: ISO currency codes
(`storage::enums::Currency`, defined outside the excerpt); a
representative subset. -/
inductive Currency where
  | AED
  | EUR
  | GBP
  | INR
  | JPY
  | KWD
  | SGD
  | USD
deriving DecidableEq, Repr

/-- Modelled from the spec: a JSON value (`serde_json::Value`), the
"generic JSON-like envelope" carrying correlation metadata. -/
inductive Json where
  | null
  | bool (b : Bool)
  | num (n : Int)
  | str (s : String)
  | arr (elems : List Json)
  | obj (fields : List (String × Json))

/-- First value bound to `key` in a JSON object's field list. -/
def jsonLookup (key : String) : List (String × Json) → Option Json
  | [] => none
  | (k, v) :: rest => if k = key then some v else jsonLookup key rest

/-- `HelcimMetaData` (`transformers.rs:234-236`): correlation metadata
`{ capture_id: u64 }` attached to a capture response and read back by the
refund request transformer. -/
structure HelcimMetaData where
  capture_id : Nat
deriving DecidableEq, Repr

/-- Serialization of `HelcimMetaData` (`serde_json::json!` at
`transformers.rs:364-366`). -/
def HelcimMetaData.toJson (m : HelcimMetaData) : Json :=
  .obj [("capture_id", .num (m.capture_id : Int))]

/-- Deserialization of `HelcimMetaData` (serde `Deserialize`): requires a
JSON object with a `capture_id` field holding a non-negative integer that
fits in a `u64`. -/
def HelcimMetaData.fromJson : Json → Option HelcimMetaData
  | .obj fields =>
      match jsonLookup "capture_id" fields with
      | some (.num n) =>
          if 0 ≤ n ∧ n.toNat < 2 ^ 64 then some ⟨n.toNat⟩ else none
      | _ => none
  | _ => none

/-! ## Connector error taxonomy and canonical request data -/

/-- Modelled from the spec: the connector error kinds
(`errors::ConnectorError`, defined outside the excerpt) that the Helcim
transformers produce. -/
inductive ConnectorError where
  | NotImplemented (operation : String)
  | FailedToObtainAuthType
  | MissingRequiredField (field_name : String)
  | RequestEncodingFailed
  | ResponseDeserializationFailed
deriving DecidableEq, Repr

/-- Modelled from the spec: `utils::missing_field_err` — a
request-construction error naming the missing field. -/
def missing_field_err (field_name : String) : ConnectorError :=
  .MissingRequiredField field_name

/-- Modelled from the spec: the canonical error payload
(`types::ErrorResponse`) stored in router data's `response` slot. -/
structure ErrorResponse where
  code : String
  message : String
  reason : Option String
  status_code : Nat
deriving DecidableEq, Repr

/-- Modelled from the spec: canonical card data
(`api_models::payments::Card`); number, expiry month/year, CVC. -/
structure Card where
  card_number : String
  card_exp_month : String
  card_exp_year : String
  card_cvc : String
deriving DecidableEq, Repr

/-- Modelled from the spec: `CardData::get_card_expiry_month_year_2_digit_with_delimiter`
— renders expiry as month, delimiter, then the last two digits of the
year. -/
def Card.get_card_expiry_month_year_2_digit_with_delimiter
    (c : Card) (delimiter : String) : String :=
  c.card_exp_month ++ delimiter ++
    (c.card_exp_year.drop (c.card_exp_year.length - 2))

/-- Modelled from the spec: the closed payment-method variant type
(`api::PaymentMethodData`); Helcim supports only `Card`. -/
inductive PaymentMethodData where
  | Card (card : Card)
  | CardRedirect
  | Wallet
  | PayLater
  | BankRedirect
  | BankDebit
  | BankTransfer
  | Crypto
  | MandatePayment
  | Reward
  | Upi
  | Voucher
  | GiftCard
deriving DecidableEq, Repr

/-- Modelled from the spec: canonical billing address details
(`api::AddressDetails`). -/
structure AddressDetails where
  city : Option String
  country : Option String
  line1 : Option String
  line2 : Option String
  line3 : Option String
  zip : Option String
  state : Option String
  first_name : Option String
  last_name : Option String
deriving DecidableEq, Repr

/-- Modelled from the spec: `AddressDetailsData::get_full_name` — the
first name is required, the last name is appended when present. -/
def AddressDetails.get_full_name (a : AddressDetails) :
    Except ConnectorError String :=
  match a.first_name with
  | none => .error (missing_field_err "address.first_name")
  | some f => .ok ((f ++ " " ++ (a.last_name.getD "")).trimRight)

/-- Modelled from the spec: `AddressDetailsData::get_line1`. -/
def AddressDetails.get_line1 (a : AddressDetails) :
    Except ConnectorError String :=
  match a.line1 with
  | none => .error (missing_field_err "address.line1")
  | some l => .ok l

/-- Modelled from the spec: `AddressDetailsData::get_zip`. -/
def AddressDetails.get_zip (a : AddressDetails) :
    Except ConnectorError String :=
  match a.zip with
  | none => .error (missing_field_err "address.zip")
  | some z => .ok z

/-- Modelled from the spec: a canonical address (`api::Address`), pairing
optional address details with optional phone details. -/
structure Address where
  address : Option AddressDetails
  phone : Option String
deriving DecidableEq, Repr

/-- Modelled from the spec: the address bundle on router data
(`PaymentAddress`). -/
structure PaymentAddress where
  shipping : Option Address
  billing : Option Address
deriving DecidableEq, Repr

/-- Modelled from the spec: browser/device metadata
(`types::BrowserInformation`); the Helcim transformers read only the IP
address. -/
structure BrowserInfo where
  ip_address : Option String
  user_agent : Option String
deriving DecidableEq, Repr

/-- Modelled from the spec: `BrowserInformationData::get_ip_address` —
the client IP is mandatory. -/
def BrowserInfo.get_ip_address (b : BrowserInfo) :
    Except ConnectorError String :=
  match b.ip_address with
  | none => .error (missing_field_err "browser_info.ip_address")
  | some ip => .ok ip

/-! ## Canonical router data -/

/-- Modelled from the spec: the kind of a payments-sync request
(`types::SyncRequestType`); a multiple-capture sync carries the pending
connector capture ids. -/
inductive SyncRequestType where
  | SinglePaymentSync
  | MultipleCaptureSync (pending_connector_capture_ids : List String)
deriving DecidableEq, Repr

/-- Modelled from the spec: canonical authorize request payload
(`types::PaymentsAuthorizeData`); the fields the Helcim transformer
reads. -/
structure PaymentsAuthorizeData where
  payment_method_data : PaymentMethodData
  amount : Int
  currency : Currency
  email : Option String
  browser_info : Option BrowserInfo
deriving DecidableEq, Repr

/-- Modelled from the spec: `PaymentsAuthorizeRequestData::get_browser_info`
— browser metadata is mandatory for this connector. -/
def PaymentsAuthorizeData.get_browser_info (r : PaymentsAuthorizeData) :
    Except ConnectorError BrowserInfo :=
  match r.browser_info with
  | none => .error (missing_field_err "browser_info")
  | some b => .ok b

/-- Modelled from the spec: canonical capture request payload
(`types::PaymentsCaptureData`). -/
structure PaymentsCaptureData where
  amount_to_capture : Int
  currency : Currency
  connector_transaction_id : String
  browser_info : Option BrowserInfo
deriving DecidableEq, Repr

/-- Modelled from the spec: `PaymentsCaptureRequestData::get_browser_info`. -/
def PaymentsCaptureData.get_browser_info (r : PaymentsCaptureData) :
    Except ConnectorError BrowserInfo :=
  match r.browser_info with
  | none => .error (missing_field_err "browser_info")
  | some b => .ok b

/-- Modelled from the spec: canonical payments-sync request payload
(`types::PaymentsSyncData`). -/
structure PaymentsSyncData where
  connector_transaction_id : String
  sync_type : SyncRequestType
deriving DecidableEq, Repr

/-- Modelled from the spec: canonical refund request payload
(`types::RefundsData`); `connector_metadata` is the correlation metadata
threaded back from the capture response. -/
structure RefundsData where
  refund_id : String
  connector_transaction_id : String
  refund_amount : Int
  currency : Currency
  connector_metadata : Option Json
  browser_info : Option BrowserInfo

/-- Modelled from the spec: `RefundsRequestData::get_browser_info`. -/
def RefundsData.get_browser_info (r : RefundsData) :
    Except ConnectorError BrowserInfo :=
  match r.browser_info with
  | none => .error (missing_field_err "browser_info")
  | some b => .ok b

/-- Modelled from the spec: `to_connector_meta` — correlation metadata
"must be present and parseable whenever a refund references a prior
capture; its absence/unparseability is a hard error": "a non-numeric or
missing identifier fails with `RequestEncodingFailed`". -/
def to_connector_meta (connector_meta : Option Json) :
    Except ConnectorError HelcimMetaData :=
  match connector_meta with
  | none => .error .RequestEncodingFailed
  | some j =>
      match HelcimMetaData.fromJson j with
      | none => .error .RequestEncodingFailed
      | some m => .ok m

/-- Modelled from the spec: a connector transaction identifier in a
canonical response (`types::ResponseId`). -/
inductive ResponseId where
  | ConnectorTransactionId (id : String)
  | EncodedData (data : String)
  | NoResponseId
deriving DecidableEq, Repr

/-- Modelled from the spec: canonical payment response payload
(`types::PaymentsResponseData`); the `TransactionResponse` variant's
fields as populated by this connector. -/
inductive PaymentsResponseData where
  | TransactionResponse
      (resource_id : ResponseId)
      (redirection_data : Option String)
      (mandate_reference : Option String)
      (connector_metadata : Option Json)
      (network_txn_id : Option String)
      (connector_response_reference_id : Option String)
  | MultipleCaptureResponse
      (capture_sync_response_list : List (String × AttemptStatus))

/-- Modelled from the spec: canonical refund response payload
(`types::RefundsResponseData`). -/
structure RefundsResponseData where
  connector_refund_id : String
  refund_status : RefundStatus
deriving DecidableEq, Repr

/-- Modelled from the spec: the canonical router data record
(`types::RouterData<Flow, Request, Response>`), carrying identity and
context fields around the per-operation `request`/`response` slots; the
response transformers rewrite only `status` and `response` via struct
update (`..item.data`). -/
structure RouterData (Req Res : Type) where
  merchant_id : String
  customer_id : Option String
  connector : String
  payment_id : String
  attempt_id : String
  status : AttemptStatus
  description : Option String
  address : PaymentAddress
  payment_method_token : Option String
  amount_captured : Option Int
  reference_id : Option String
  request : Req
  response : Except ErrorResponse Res

/-- Modelled from the spec: `RouterData::get_billing` — the billing
address bundle is mandatory. -/
def RouterData.get_billing {Req Res : Type} (rd : RouterData Req Res) :
    Except ConnectorError Address :=
  match rd.address.billing with
  | none => .error (missing_field_err "billing")
  | some b => .ok b

/-- Modelled from the spec: the response-handling envelope
(`types::ResponseRouterData`), pairing a parsed wire response with the
canonical router data of the call. -/
structure ResponseRouterData (Resp Req Res : Type) where
  response : Resp
  data : RouterData Req Res
  http_code : Nat

/-- `HelcimRouterData` (`transformers.rs:16-19`): the canonical wrapper
pairing the normalized amount with the routed payload.  The source stores
the amount as `f64`; no claim settled here computes with it, so it is
carried as a rational. -/
structure HelcimRouterData (T : Type) where
  amount : ℚ
  router_data : T

/-! ## Helcim wire requests and responses -/

/-- `HelcimCard` (`transformers.rs:75-79`). -/
structure HelcimCard where
  card_number : String
  card_expiry : String
  card_c_v_v : String
deriving DecidableEq, Repr

/-- `HelcimBillingAddress` (`transformers.rs:61-71`). -/
structure HelcimBillingAddress where
  name : String
  street1 : String
  postal_code : String
  street2 : Option String
  city : Option String
  email : Option String
deriving DecidableEq, Repr

/-- `HelcimPaymentsRequest` (`transformers.rs:49-57`): the authorize wire
request. -/
structure HelcimPaymentsRequest where
  amount : ℚ
  currency : Currency
  ip_address : String
  card_data : HelcimCard
  billing_address : HelcimBillingAddress
  ecommerce : Option Bool
deriving DecidableEq, Repr

/-- `HelcimCaptureRequest` (`transformers.rs:313-318`). -/
structure HelcimCaptureRequest where
  pre_auth_transaction_id : Nat
  amount : ℚ
  ip_address : String
  ecommerce : Option Bool
deriving DecidableEq, Repr

/-- `HelcimRefundRequest` (`transformers.rs:389-394`). -/
structure HelcimRefundRequest where
  amount : ℚ
  original_transaction_id : Nat
  ip_address : String
  ecommerce : Option Bool
deriving DecidableEq, Repr

/-- `HelcimPaymentsResponse` (`transformers.rs:190-195`): the parsed wire
response `{status, transactionId: u64, type}`. -/
structure HelcimPaymentsResponse where
  status : HelcimPaymentStatus
  transaction_id : Nat
  transaction_type : HelcimTransactionType
deriving DecidableEq, Repr

/-- `RefundResponse` (`transformers.rs:427-432`). -/
structure RefundResponse where
  status : HelcimPaymentStatus
  transaction_id : Nat
  transaction_type : HelcimRefundTransactionType
deriving DecidableEq, Repr

/-! ## Status reconciliation matrix -/

/-- `From<HelcimPaymentsResponse> for enums::AttemptStatus`
(`transformers.rs:164-185`): the status reconciliation matrix for payment
operations — an exhaustive match on (transaction type, outcome) with no
wildcard arm. -/
def AttemptStatus.fromHelcimPaymentsResponse
    (item : HelcimPaymentsResponse) : AttemptStatus :=
  match item.transaction_type with
  | .Purchase =>
      match item.status with
      | .Approved => .Charged
      | .Declined => .Failure
  | .PreAuth =>
      match item.status with
      | .Approved => .Authorized
      | .Declined => .AuthorizationFailed
  | .Capture =>
      match item.status with
      | .Approved => .Charged
      | .Declined => .CaptureFailed
  | .Verify =>
      match item.status with
      | .Approved => .AuthenticationSuccessful
      | .Declined => .AuthenticationFailed

/-- `From<RefundResponse> for enums::RefundStatus`
(`transformers.rs:434-443`): the refund row of the reconciliation
matrix. -/
def RefundStatus.fromRefundResponse (item : RefundResponse) : RefundStatus :=
  match item.transaction_type with
  | .Refund =>
      match item.status with
      | .Approved => .Success
      | .Declined => .Failure

/-! ## Request transformers -/

/-- Rust `str::parse::<u64>`: an optional leading `+`, then one or more
ASCII digits, with the value required to fit in 64 bits. -/
def parseU64 (s : String) : Option Nat :=
  let digits :=
    match s.toList with
    | '+' :: rest => rest
    | chars => chars
  if digits.isEmpty then none
  else if digits.all Char.isDigit then
    let n := digits.foldl (fun acc c => acc * 10 + (c.toNat - 48)) 0
    if n < 2 ^ 64 then some n else none
  else none

/-- `TryFrom<&HelcimRouterData<&PaymentsAuthorizeRouterData>> for
HelcimPaymentsRequest` (`transformers.rs:81-127`): only `Card` payment
method data is accepted; the billing address and its name, line 1 and
postal code are mandatory, then browser IP is resolved, in source
order. -/
def HelcimPaymentsRequest.try_from
    (item : HelcimRouterData (RouterData PaymentsAuthorizeData PaymentsResponseData)) :
    Except ConnectorError HelcimPaymentsRequest :=
  match item.router_data.request.payment_method_data with
  | .Card req_card =>
      let card_data : HelcimCard :=
        { card_expiry := req_card.get_card_expiry_month_year_2_digit_with_delimiter ""
          card_number := req_card.card_number
          card_c_v_v := req_card.card_cvc }
      match item.router_data.get_billing with
      | .error e => .error e
      | .ok billing =>
      match billing.address with
      | none => .error (missing_field_err "billing.address")
      | some req_address =>
      match req_address.get_full_name with
      | .error e => .error e
      | .ok name =>
      match req_address.get_line1 with
      | .error e => .error e
      | .ok street1 =>
      match req_address.get_zip with
      | .error e => .error e
      | .ok postal_code =>
      let billing_address : HelcimBillingAddress :=
        { name := name
          street1 := street1
          postal_code := postal_code
          street2 := req_address.line2
          city := req_address.city
          email := item.router_data.request.email }
      match item.router_data.request.get_browser_info with
      | .error e => .error e
      | .ok binfo =>
      match binfo.get_ip_address with
      | .error e => .error e
      | .ok ip_address =>
      Except.ok
        { amount := item.amount
          currency := item.router_data.request.currency
          ip_address := ip_address
          card_data := card_data
          billing_address := billing_address
          ecommerce := none }
  | _ => .error (.NotImplemented "Payment methods")

/-- `TryFrom<&HelcimRouterData<&PaymentsCaptureRouterData>> for
HelcimCaptureRequest` (`transformers.rs:320-343`): the browser IP is
resolved first, then the original transaction reference is parsed as a
`u64`; a parse failure becomes `RequestEncodingFailed`. -/
def HelcimCaptureRequest.try_from
    (item : HelcimRouterData (RouterData PaymentsCaptureData PaymentsResponseData)) :
    Except ConnectorError HelcimCaptureRequest :=
  match item.router_data.request.get_browser_info with
  | .error e => .error e
  | .ok binfo =>
  match binfo.get_ip_address with
  | .error e => .error e
  | .ok ip_address =>
  match parseU64 item.router_data.request.connector_transaction_id with
  | none => .error .RequestEncodingFailed
  | some pre_auth_transaction_id =>
  Except.ok
    { pre_auth_transaction_id := pre_auth_transaction_id
      amount := item.amount
      ip_address := ip_address
      ecommerce := none }

/-- `TryFrom<&HelcimRouterData<&RefundsRouterData<F>>> for
HelcimRefundRequest` (`transformers.rs:396-416`): the correlation metadata
is decoded first (`to_connector_meta`); its `capture_id` becomes
`originalTransactionId`, then the browser IP is resolved. -/
def HelcimRefundRequest.try_from
    (item : HelcimRouterData (RouterData RefundsData RefundsResponseData)) :
    Except ConnectorError HelcimRefundRequest :=
  match to_connector_meta item.router_data.request.connector_metadata with
  | .error e => .error e
  | .ok helcim_meta_data =>
  let original_transaction_id := helcim_meta_data.capture_id
  match item.router_data.request.get_browser_info with
  | .error e => .error e
  | .ok binfo =>
  match binfo.get_ip_address with
  | .error e => .error e
  | .ok ip_address =>
  Except.ok
    { amount := item.amount
      original_transaction_id := original_transaction_id
      ip_address := ip_address
      ecommerce := none }

/-! ## Response transformers -/

/-- `TryFrom<ResponseRouterData<F, HelcimPaymentsResponse,
PaymentsAuthorizeData, PaymentsResponseData>> for RouterData`
(`transformers.rs:197-231`): rewrites `response` to a
`TransactionResponse` carrying the connector transaction id and `status`
via the reconciliation matrix; everything else comes from `..item.data`. -/
def RouterData.try_from_authorize_response
    (item : ResponseRouterData HelcimPaymentsResponse PaymentsAuthorizeData PaymentsResponseData) :
    Except ConnectorError (RouterData PaymentsAuthorizeData PaymentsResponseData) :=
  Except.ok
    { item.data with
      response := Except.ok (.TransactionResponse
        (.ConnectorTransactionId (toString item.response.transaction_id))
        none none none none none)
      status := AttemptStatus.fromHelcimPaymentsResponse item.response }

/-- `TryFrom<ResponseRouterData<F, HelcimPaymentsResponse,
PaymentsSyncData, PaymentsResponseData>> for RouterData`
(`transformers.rs:259-309`): a single-payment sync yields a
`TransactionResponse`; a multiple-capture sync fails with
`NotImplemented("manual multiple capture sync")`. -/
def RouterData.try_from_sync_response
    (item : ResponseRouterData HelcimPaymentsResponse PaymentsSyncData PaymentsResponseData) :
    Except ConnectorError (RouterData PaymentsSyncData PaymentsResponseData) :=
  match item.data.request.sync_type with
  | .SinglePaymentSync =>
      Except.ok
        { item.data with
          response := Except.ok (.TransactionResponse
            (.ConnectorTransactionId (toString item.response.transaction_id))
            none none none none none)
          status := AttemptStatus.fromHelcimPaymentsResponse item.response }
  | .MultipleCaptureSync _ =>
      Except.error (.NotImplemented "manual multiple capture sync")

/-- `TryFrom<ResponseRouterData<F, HelcimPaymentsResponse,
PaymentsCaptureData, PaymentsResponseData>> for RouterData`
(`transformers.rs:345-382`): additionally attaches correlation metadata
`HelcimMetaData { capture_id: transaction_id }` to the response. -/
def RouterData.try_from_capture_response
    (item : ResponseRouterData HelcimPaymentsResponse PaymentsCaptureData PaymentsResponseData) :
    Except ConnectorError (RouterData PaymentsCaptureData PaymentsResponseData) :=
  let connector_metadata :=
    some (HelcimMetaData.toJson { capture_id := item.response.transaction_id })
  Except.ok
    { item.data with
      response := Except.ok (.TransactionResponse
        (.ConnectorTransactionId (toString item.response.transaction_id))
        none none connector_metadata none none)
      status := AttemptStatus.fromHelcimPaymentsResponse item.response }

/-- `TryFrom<RefundsResponseRouterData<Execute, RefundResponse>> for
RefundsRouterData<Execute>` (`transformers.rs:445-460`): rewrites only
`response`. -/
def RouterData.try_from_refund_execute_response
    (item : ResponseRouterData RefundResponse RefundsData RefundsResponseData) :
    Except ConnectorError (RouterData RefundsData RefundsResponseData) :=
  Except.ok
    { item.data with
      response := Except.ok
        { connector_refund_id := toString item.response.transaction_id
          refund_status := RefundStatus.fromRefundResponse item.response } }

/-- `TryFrom<RefundsResponseRouterData<RSync, RefundResponse>> for
RefundsRouterData<RSync>` (`transformers.rs:462-477`): rewrites only
`response`. -/
def RouterData.try_from_refund_rsync_response
    (item : ResponseRouterData RefundResponse RefundsData RefundsResponseData) :
    Except ConnectorError (RouterData RefundsData RefundsResponseData) :=
  Except.ok
    { item.data with
      response := Except.ok
        { connector_refund_id := toString item.response.transaction_id
          refund_status := RefundStatus.fromRefundResponse item.response } }

/-! ## Concrete sample inputs used by witnesses -/

/-- A validator environment whose storage lookup always reports a genuine
backend error (not a "not found" signal). -/
def backendErrorEnv : ValidatorEnv :=
  { find_payout := fun _ _ => .error (.DatabaseError "connection reset")
    locker_fetch := fun _ _ _ => .error "locker unavailable"
    parse_payout_method := fun _ => none
    generate_uuid := "generated-uuid-1" }

/-- A plain create request: no caller-supplied merchant id, no payout
token, caller-supplied payout id `p1`. -/
def plainCreateReq : PayoutCreateRequest :=
  { merchant_id := none
    customer_id := none
    payout_token := none
    payout_id := some "p1" }

/-- A validator environment whose storage holds exactly the payout
`(m1, p1)`. -/
def storedPayoutEnv : ValidatorEnv :=
  { find_payout := fun m p =>
      if m = "m1" ∧ p = "p1" then .ok { payout_id := "p1", merchant_id := "m1" }
      else .error (.ValueNotFound "payout")
    locker_fetch := fun _ _ _ => .error "locker unavailable"
    parse_payout_method := fun _ => none
    generate_uuid := "generated-uuid-1" }

/-! ## C1: backend storage errors in validate_create_request -/

/-- C1 counterexample: the storage lookup fails with the genuine backend
error `DatabaseError "connection reset"` (not a "not found" signal), yet
`validate_create_request` surfaces the `DuplicatePayout` kind, not
`InternalServerError` — the `change_context(DuplicatePayout { payout_id })`
wrapper at `validator.rs:105` replaces the inner `InternalServerError`
context on every error of the uniqueness check. -/
theorem validate_create_request_backend_error_kind_counterexample :
    (backendErrorEnv.find_payout "m1" "p1" =
        .error (.DatabaseError "connection reset") ∧
      (StorageError.DatabaseError "connection reset").is_db_not_found = false) ∧
    validate_create_request backendErrorEnv "m1" plainCreateReq =
      .error (.DuplicatePayout "p1") ∧
    validate_create_request backendErrorEnv "m1" plainCreateReq ≠
      .error .InternalServerError := by
  refine ⟨⟨rfl, rfl⟩, rfl, fun h => ?_⟩
  have h2 : ApiErrorResponse.DuplicatePayout "p1" = ApiErrorResponse.InternalServerError :=
    Except.error.inj h
  exact ApiErrorResponse.noConfusion h2

/-- C1 (amended): when the storage lookup returns a genuine backend error,
the inner uniqueness check fails with `InternalServerError` and
`validate_create_request` fails, so creation does not proceed — but the
error kind `validate_create_request` itself surfaces is
`DuplicatePayout payout_id`, because it change-contexts every error of the
uniqueness check. -/
theorem validate_create_request_backend_error_fails
    (env : ValidatorEnv) (merchant_id pid : String) (req : PayoutCreateRequest)
    (err : StorageError)
    (hmid : req.merchant_id = none ∨ req.merchant_id = some merchant_id)
    (htok : req.payout_token = none)
    (hpid : req.payout_id = some pid)
    (hdb : env.find_payout merchant_id pid = .error err)
    (hgen : err.is_db_not_found = false) :
    validate_uniqueness_of_payout_id_against_merchant_id
        env.find_payout pid merchant_id = .error .InternalServerError ∧
    validate_create_request env merchant_id req =
      .error (.DuplicatePayout pid) := by
  have huniq : validate_uniqueness_of_payout_id_against_merchant_id
      env.find_payout pid merchant_id = .error .InternalServerError := by
    unfold validate_uniqueness_of_payout_id_against_merchant_id
    rw [hdb]
    simp [hgen]
  refine ⟨huniq, ?_⟩
  unfold validate_create_request
  rcases hmid with h | h <;>
    simp [h, htok, hpid, resolve_payout_method_data, get_or_generate_uuid,
      huniq, changeContext]

/-- C1 witness: the amended theorem applied to the concrete backend-error
environment. -/
theorem validate_create_request_backend_error_fails_witness :
    validate_create_request backendErrorEnv "m1" plainCreateReq =
      .error (.DuplicatePayout "p1") :=
  (validate_create_request_backend_error_fails backendErrorEnv "m1" "p1"
    plainCreateReq (.DatabaseError "connection reset")
    (Or.inl rfl) rfl rfl rfl rfl).2

/-! ## C3: idempotent-creation guard -/

/-- C3: if storage holds a record for `(M1, P1)` whose stored payout id
exactly equals `P1`, `validate_create_request` fails with
`DuplicatePayout P1`; if storage reports "not found", or returns a record
whose stored payout id differs from the queried one, validation succeeds
with the resolved payout id. -/
theorem validate_create_request_idempotency
    (env : ValidatorEnv) (m p : String) (req : PayoutCreateRequest)
    (hmid : req.merchant_id = none ∨ req.merchant_id = some m)
    (htok : req.payout_token = none)
    (hpid : req.payout_id = some p) :
    (∀ record : Payouts, env.find_payout m p = .ok record →
        record.payout_id = p →
        validate_create_request env m req = .error (.DuplicatePayout p)) ∧
    (∀ err : StorageError, env.find_payout m p = .error err →
        err.is_db_not_found = true →
        validate_create_request env m req = .ok (p, none)) ∧
    (∀ record : Payouts, env.find_payout m p = .ok record →
        record.payout_id ≠ p →
        validate_create_request env m req = .ok (p, none)) := by
  refine ⟨?_, ?_, ?_⟩
  · intro record hdb hmatch
    have huniq : validate_uniqueness_of_payout_id_against_merchant_id
        env.find_payout p m = .ok (some record) := by
      unfold validate_uniqueness_of_payout_id_against_merchant_id
      rw [hdb]
      simp [hmatch]
    unfold validate_create_request
    rcases hmid with h | h <;>
      simp [h, htok, hpid, resolve_payout_method_data, get_or_generate_uuid,
        huniq, changeContext]
  · intro err hdb hnf
    have huniq : validate_uniqueness_of_payout_id_against_merchant_id
        env.find_payout p m = .ok none := by
      unfold validate_uniqueness_of_payout_id_against_merchant_id
      rw [hdb]
      simp [hnf]
    unfold validate_create_request
    rcases hmid with h | h <;>
      simp [h, htok, hpid, resolve_payout_method_data, get_or_generate_uuid,
        huniq, changeContext]
  · intro record hdb hmatch
    have huniq : validate_uniqueness_of_payout_id_against_merchant_id
        env.find_payout p m = .ok none := by
      unfold validate_uniqueness_of_payout_id_against_merchant_id
      rw [hdb]
      simp [hmatch]
    unfold validate_create_request
    rcases hmid with h | h <;>
      simp [h, htok, hpid, resolve_payout_method_data, get_or_generate_uuid,
        huniq, changeContext]

/-- C3 witness: with the stored payout `(m1, p1)`, a second attempt with
payout id `p1` is rejected as a duplicate. -/
theorem validate_create_request_idempotency_witness :
    validate_create_request storedPayoutEnv "m1" plainCreateReq =
      .error (.DuplicatePayout "p1") :=
  (validate_create_request_idempotency storedPayoutEnv "m1" "p1"
      plainCreateReq (Or.inl rfl) rfl rfl).1
    { payout_id := "p1", merchant_id := "m1" } rfl rfl

/-! ## C2: status reconciliation matrix -/

/-- C2: the status reconciliation is total and matches the matrix — for
each of the five declared transaction types (Purchase, PreAuth, Capture,
Verify for payments; Refund for refunds) both connector outcomes map
through the single explicit table below with no default or fallback, the
two outcomes map to distinct canonical states within each transaction
type, and the five singled-out entries hold: (PreAuth, Approved) ↦
Authorized, (Capture, Declined) ↦ CaptureFailed, (Purchase, Approved) ↦
Charged, (Verify, Declined) ↦ AuthenticationFailed, and
(Refund, Approved) ↦ the refund-success canonical state. -/
theorem helcim_status_matrix_total :
    (∀ r : HelcimPaymentsResponse,
        AttemptStatus.fromHelcimPaymentsResponse r =
          match r.transaction_type, r.status with
          | .Purchase, .Approved => .Charged
          | .Purchase, .Declined => .Failure
          | .PreAuth, .Approved => .Authorized
          | .PreAuth, .Declined => .AuthorizationFailed
          | .Capture, .Approved => .Charged
          | .Capture, .Declined => .CaptureFailed
          | .Verify, .Approved => .AuthenticationSuccessful
          | .Verify, .Declined => .AuthenticationFailed) ∧
    (∀ r : RefundResponse,
        RefundStatus.fromRefundResponse r =
          match r.transaction_type, r.status with
          | .Refund, .Approved => .Success
          | .Refund, .Declined => .Failure) ∧
    (∀ (t : HelcimTransactionType) (tid : Nat),
        AttemptStatus.fromHelcimPaymentsResponse ⟨.Approved, tid, t⟩ ≠
          AttemptStatus.fromHelcimPaymentsResponse ⟨.Declined, tid, t⟩) ∧
    (∀ tid : Nat,
        RefundStatus.fromRefundResponse ⟨.Approved, tid, .Refund⟩ ≠
          RefundStatus.fromRefundResponse ⟨.Declined, tid, .Refund⟩) ∧
    (∀ tid : Nat,
        AttemptStatus.fromHelcimPaymentsResponse ⟨.Approved, tid, .PreAuth⟩ =
          .Authorized) ∧
    (∀ tid : Nat,
        AttemptStatus.fromHelcimPaymentsResponse ⟨.Declined, tid, .Capture⟩ =
          .CaptureFailed) ∧
    (∀ tid : Nat,
        AttemptStatus.fromHelcimPaymentsResponse ⟨.Approved, tid, .Purchase⟩ =
          .Charged) ∧
    (∀ tid : Nat,
        AttemptStatus.fromHelcimPaymentsResponse ⟨.Declined, tid, .Verify⟩ =
          .AuthenticationFailed) ∧
    (∀ tid : Nat,
        RefundStatus.fromRefundResponse ⟨.Approved, tid, .Refund⟩ =
          .Success) := by
  refine ⟨?_, ?_, ?_, ?_, ?_, ?_, ?_, ?_, ?_⟩
  · rintro ⟨s, tid, t⟩
    cases s <;> cases t <;> rfl
  · rintro ⟨s, tid, t⟩
    cases s <;> cases t <;> rfl
  · intro t tid
    cases t <;> exact fun h => AttemptStatus.noConfusion h
  · intro tid
    exact fun h => RefundStatus.noConfusion h
  all_goals intro tid
  all_goals rfl

/-! ## C4: correlation metadata round-trip -/

/-- Decoding inverts encoding for correlation metadata whose capture id
fits in a `u64`. -/
theorem HelcimMetaData.fromJson_toJson (m : HelcimMetaData)
    (h : m.capture_id < 2 ^ 64) :
    HelcimMetaData.fromJson m.toJson = some m := by
  have h3 : m.capture_id < 18446744073709551616 := h
  simp [HelcimMetaData.toJson, HelcimMetaData.fromJson, jsonLookup, h3]

/-- Browser metadata carrying the sample client IP. -/
def sampleBrowserInfo : BrowserInfo :=
  { ip_address := some "192.168.0.10", user_agent := none }

/-- A complete sample billing address. -/
def sampleAddressDetails : AddressDetails :=
  { city := some "Toronto"
    country := some "CA"
    line1 := some "1 Main St"
    line2 := none
    line3 := none
    zip := some "M1M 1M1"
    state := none
    first_name := some "Ada"
    last_name := some "Lovelace" }

/-- The pending canonical error payload stored in router data before a
response arrives. -/
def pendingError : ErrorResponse :=
  { code := "IR_01", message := "pending", reason := none, status_code := 200 }

/-- Canonical router data around a request payload, with billing address
present. -/
def mkRouterData {Req Res : Type} (req : Req) : RouterData Req Res :=
  { merchant_id := "merchant_1"
    customer_id := some "cust_1"
    connector := "helcim"
    payment_id := "pay_1"
    attempt_id := "pay_1_1"
    status := .Pending
    description := none
    address := { shipping := none
                 billing := some { address := some sampleAddressDetails, phone := none } }
    payment_method_token := none
    amount_captured := none
    reference_id := none
    request := req
    response := .error pendingError }

/-- C4: a successful capture response gets correlation metadata recording
the connector transaction id (decoding the attached metadata yields exactly
that id), and a refund request built from that metadata produces a wire
request whose `originalTransactionId` equals the captured transaction's
identifier. -/
theorem capture_metadata_refund_roundtrip
    (item : ResponseRouterData HelcimPaymentsResponse PaymentsCaptureData PaymentsResponseData)
    (ritem : HelcimRouterData (RouterData RefundsData RefundsResponseData))
    (binfo : BrowserInfo) (ip : String)
    (hid : item.response.transaction_id < 2 ^ 64)
    (hmeta : ritem.router_data.request.connector_metadata =
        some (HelcimMetaData.toJson { capture_id := item.response.transaction_id }))
    (hbi : ritem.router_data.request.browser_info = some binfo)
    (hip : binfo.ip_address = some ip) :
    RouterData.try_from_capture_response item =
      Except.ok
        { item.data with
          response := Except.ok (.TransactionResponse
            (.ConnectorTransactionId (toString item.response.transaction_id))
            none none
            (some (HelcimMetaData.toJson { capture_id := item.response.transaction_id }))
            none none)
          status := AttemptStatus.fromHelcimPaymentsResponse item.response } ∧
    HelcimMetaData.fromJson
        (HelcimMetaData.toJson { capture_id := item.response.transaction_id }) =
      some { capture_id := item.response.transaction_id } ∧
    HelcimRefundRequest.try_from ritem =
      Except.ok
        { amount := ritem.amount
          original_transaction_id := item.response.transaction_id
          ip_address := ip
          ecommerce := none } := by
  have hdec : HelcimMetaData.fromJson
      (HelcimMetaData.toJson { capture_id := item.response.transaction_id }) =
      some { capture_id := item.response.transaction_id } :=
    HelcimMetaData.fromJson_toJson _ hid
  refine ⟨rfl, hdec, ?_⟩
  unfold HelcimRefundRequest.try_from
  rw [hmeta]
  simp [to_connector_meta, hdec, RefundsData.get_browser_info, hbi,
    BrowserInfo.get_ip_address, hip]

/-- A capture response item: connector approved capture 42. -/
def captureRespItem :
    ResponseRouterData HelcimPaymentsResponse PaymentsCaptureData PaymentsResponseData :=
  { response := { status := .Approved, transaction_id := 42, transaction_type := .Capture }
    data := mkRouterData
      { amount_to_capture := 100
        currency := .USD
        connector_transaction_id := "41"
        browser_info := some sampleBrowserInfo }
    http_code := 200 }

/-- A refund request item carrying the metadata written for capture 42. -/
def refundReqItem : HelcimRouterData (RouterData RefundsData RefundsResponseData) :=
  { amount := 1
    router_data := mkRouterData
      { refund_id := "ref_1"
        connector_transaction_id := "41"
        refund_amount := 100
        currency := .USD
        connector_metadata := some (HelcimMetaData.toJson { capture_id := 42 })
        browser_info := some sampleBrowserInfo } }

/-- C4 witness: the round-trip theorem applied to capture 42 and the
matching refund request. -/
theorem capture_metadata_refund_roundtrip_witness :
    HelcimRefundRequest.try_from refundReqItem =
      Except.ok
        { amount := 1
          original_transaction_id := 42
          ip_address := "192.168.0.10"
          ecommerce := none } :=
  (capture_metadata_refund_roundtrip captureRespItem refundReqItem
    sampleBrowserInfo "192.168.0.10" (by decide) rfl rfl rfl).2.2

/-! ## C6: unparseable prior transaction identifiers -/

/-- C6: a capture request whose connector transaction reference does not
parse as a non-negative 64-bit integer fails with `RequestEncodingFailed`
(with browser metadata present, so the earlier IP lookup succeeds), and a
refund request whose correlation metadata is missing or unparseable fails
with `RequestEncodingFailed`; neither emits a wire request. -/
theorem unparseable_transaction_reference_fails
    (citem : HelcimRouterData (RouterData PaymentsCaptureData PaymentsResponseData))
    (ritem : HelcimRouterData (RouterData RefundsData RefundsResponseData))
    (binfo : BrowserInfo) (ip : String)
    (hbi : citem.router_data.request.browser_info = some binfo)
    (hip : binfo.ip_address = some ip)
    (hparse : parseU64 citem.router_data.request.connector_transaction_id = none)
    (hmeta : ritem.router_data.request.connector_metadata = none ∨
      ∃ j, ritem.router_data.request.connector_metadata = some j ∧
        HelcimMetaData.fromJson j = none) :
    HelcimCaptureRequest.try_from citem = .error .RequestEncodingFailed ∧
    HelcimRefundRequest.try_from ritem = .error .RequestEncodingFailed := by
  constructor
  · unfold HelcimCaptureRequest.try_from
    simp [PaymentsCaptureData.get_browser_info, hbi,
      BrowserInfo.get_ip_address, hip, hparse]
  · unfold HelcimRefundRequest.try_from
    rcases hmeta with h | ⟨j, hj, hdec⟩
    · simp [to_connector_meta, h]
    · rw [hj]
      simp only [to_connector_meta]
      rw [hdec]

/-- A capture item whose original transaction reference is not numeric. -/
def badCaptureItem :
    HelcimRouterData (RouterData PaymentsCaptureData PaymentsResponseData) :=
  { amount := 1
    router_data := mkRouterData
      { amount_to_capture := 100
        currency := .USD
        connector_transaction_id := "not-a-number"
        browser_info := some sampleBrowserInfo } }

/-- A refund item with no correlation metadata attached. -/
def metadatalessRefundItem :
    HelcimRouterData (RouterData RefundsData RefundsResponseData) :=
  { amount := 1
    router_data := mkRouterData
      { refund_id := "ref_1"
        connector_transaction_id := "41"
        refund_amount := 100
        currency := .USD
        connector_metadata := none
        browser_info := some sampleBrowserInfo } }

/-- C6 witness: the failure theorem applied to a non-numeric capture
reference and a metadata-less refund. -/
theorem unparseable_transaction_reference_fails_witness :
    HelcimCaptureRequest.try_from badCaptureItem =
      .error .RequestEncodingFailed ∧
    HelcimRefundRequest.try_from metadatalessRefundItem =
      .error .RequestEncodingFailed :=
  unparseable_transaction_reference_fails badCaptureItem metadatalessRefundItem
    sampleBrowserInfo "192.168.0.10" rfl rfl (by decide) (Or.inl rfl)

/-! ## C7: missing billing address on authorize -/

/-- A complete sample card. -/
def sampleCard : Card :=
  { card_number := "4111111111111111"
    card_exp_month := "03"
    card_exp_year := "2027"
    card_cvc := "737" }

/-- C7: an authorize request with card payment method data whose billing
bundle carries no address fails with a missing-field error naming
`billing.address`, and no wire request is emitted. -/
theorem authorize_missing_billing_address_fails
    (item : HelcimRouterData (RouterData PaymentsAuthorizeData PaymentsResponseData))
    (card : Card) (billing : Address)
    (hpm : item.router_data.request.payment_method_data = .Card card)
    (hbill : item.router_data.address.billing = some billing)
    (haddr : billing.address = none) :
    HelcimPaymentsRequest.try_from item =
      .error (.MissingRequiredField "billing.address") := by
  unfold HelcimPaymentsRequest.try_from
  rw [hpm]
  simp [RouterData.get_billing, hbill, haddr, missing_field_err]

/-- An authorize item with a card but no billing address details. -/
def addresslessAuthItem :
    HelcimRouterData (RouterData PaymentsAuthorizeData PaymentsResponseData) :=
  { amount := 1
    router_data :=
      { mkRouterData
          { payment_method_data := .Card sampleCard
            amount := 100
            currency := .USD
            email := none
            browser_info := some sampleBrowserInfo } with
        address := { shipping := none
                     billing := some { address := none, phone := none } } } }

/-- C7 witness: the missing-billing-address theorem applied to the
concrete address-less authorize item. -/
theorem authorize_missing_billing_address_fails_witness :
    HelcimPaymentsRequest.try_from addresslessAuthItem =
      .error (.MissingRequiredField "billing.address") :=
  authorize_missing_billing_address_fails addresslessAuthItem sampleCard
    { address := none, phone := none } rfl rfl rfl

/-! ## C8: unsupported payment methods on authorize -/

/-- C8: an authorize request whose payment method data is any variant
other than `Card` fails with `NotImplemented("Payment methods")`, and no
wire request is emitted. -/
theorem authorize_non_card_not_implemented
    (item : HelcimRouterData (RouterData PaymentsAuthorizeData PaymentsResponseData))
    (h : ∀ card : Card, item.router_data.request.payment_method_data ≠ .Card card) :
    HelcimPaymentsRequest.try_from item =
      .error (.NotImplemented "Payment methods") := by
  unfold HelcimPaymentsRequest.try_from
  cases hpm : item.router_data.request.payment_method_data
  all_goals first
    | rfl
    | exact absurd hpm (h _)

/-- An authorize item paying with a wallet rather than a card. -/
def walletAuthItem :
    HelcimRouterData (RouterData PaymentsAuthorizeData PaymentsResponseData) :=
  { amount := 1
    router_data := mkRouterData
      { payment_method_data := .Wallet
        amount := 100
        currency := .USD
        email := none
        browser_info := some sampleBrowserInfo } }

/-- C8 witness: the non-card theorem applied to the wallet item. -/
theorem authorize_non_card_not_implemented_witness :
    HelcimPaymentsRequest.try_from walletAuthItem =
      .error (.NotImplemented "Payment methods") :=
  authorize_non_card_not_implemented walletAuthItem
    (fun _ hcard => PaymentMethodData.noConfusion hcard)

/-! ## C9: multiple-capture sync is observably unsupported -/

/-- C9: a payments-sync response transformation fails with
`NotImplemented("manual multiple capture sync")` whenever the sync request
is a multiple-capture sync — it never returns a (possibly empty) result —
and for a single-payment sync it returns the canonical transaction
response. -/
theorem sync_multiple_capture_not_implemented
    (item : ResponseRouterData HelcimPaymentsResponse PaymentsSyncData PaymentsResponseData) :
    (∀ ids, item.data.request.sync_type = .MultipleCaptureSync ids →
        RouterData.try_from_sync_response item =
          .error (.NotImplemented "manual multiple capture sync")) ∧
    (item.data.request.sync_type = .SinglePaymentSync →
        RouterData.try_from_sync_response item =
          .ok { item.data with
                response := .ok (.TransactionResponse
                  (.ConnectorTransactionId (toString item.response.transaction_id))
                  none none none none none)
                status := AttemptStatus.fromHelcimPaymentsResponse item.response }) := by
  constructor
  · intro ids h
    unfold RouterData.try_from_sync_response
    rw [h]
  · intro h
    unfold RouterData.try_from_sync_response
    rw [h]

/-- A sync item whose request is a manual multiple-capture sync. -/
def multiCaptureSyncItem :
    ResponseRouterData HelcimPaymentsResponse PaymentsSyncData PaymentsResponseData :=
  { response := { status := .Approved, transaction_id := 42, transaction_type := .Capture }
    data := mkRouterData
      { connector_transaction_id := "42"
        sync_type := .MultipleCaptureSync ["41", "42"] }
    http_code := 200 }

/-- C9 witness: the sync theorem applied to the concrete multiple-capture
sync item. -/
theorem sync_multiple_capture_not_implemented_witness :
    RouterData.try_from_sync_response multiCaptureSyncItem =
      .error (.NotImplemented "manual multiple capture sync") :=
  (sync_multiple_capture_not_implemented multiCaptureSyncItem).1
    ["41", "42"] rfl

/-! ## C10: response transformers replace only status and response -/

/-- All fields of canonical router data other than `status` and
`response`. -/
def RouterData.frame {Req Res : Type} (rd : RouterData Req Res) :
    String × Option String × String × String × String × Option String ×
      PaymentAddress × Option String × Option Int × Option String × Req :=
  (rd.merchant_id, rd.customer_id, rd.connector, rd.payment_id,
    rd.attempt_id, rd.description, rd.address, rd.payment_method_token,
    rd.amount_captured, rd.reference_id, rd.request)

/-- C10: every successful response transformation (authorize, sync,
capture, refund execute, refund sync) carries every field of the incoming
canonical router data other than `response` and `status` into the output
unchanged; the refund transformations additionally leave `status`
unchanged. -/
theorem response_transformers_preserve_frame :
    (∀ (item : ResponseRouterData HelcimPaymentsResponse PaymentsAuthorizeData PaymentsResponseData)
        out, RouterData.try_from_authorize_response item = .ok out →
        out.frame = item.data.frame) ∧
    (∀ (item : ResponseRouterData HelcimPaymentsResponse PaymentsSyncData PaymentsResponseData)
        out, RouterData.try_from_sync_response item = .ok out →
        out.frame = item.data.frame) ∧
    (∀ (item : ResponseRouterData HelcimPaymentsResponse PaymentsCaptureData PaymentsResponseData)
        out, RouterData.try_from_capture_response item = .ok out →
        out.frame = item.data.frame) ∧
    (∀ (item : ResponseRouterData RefundResponse RefundsData RefundsResponseData)
        out, RouterData.try_from_refund_execute_response item = .ok out →
        out.frame = item.data.frame ∧ out.status = item.data.status) ∧
    (∀ (item : ResponseRouterData RefundResponse RefundsData RefundsResponseData)
        out, RouterData.try_from_refund_rsync_response item = .ok out →
        out.frame = item.data.frame ∧ out.status = item.data.status) := by
  refine ⟨?_, ?_, ?_, ?_, ?_⟩
  · intro item out h
    injection h with h1
    subst h1
    rfl
  · intro item out h
    unfold RouterData.try_from_sync_response at h
    cases hst : item.data.request.sync_type with
    | SinglePaymentSync =>
        rw [hst] at h
        injection h with h1
        subst h1
        rfl
    | MultipleCaptureSync ids =>
        rw [hst] at h
        exact Except.noConfusion h
  · intro item out h
    injection h with h1
    subst h1
    rfl
  · intro item out h
    injection h with h1
    subst h1
    exact ⟨rfl, rfl⟩
  · intro item out h
    injection h with h1
    subst h1
    exact ⟨rfl, rfl⟩

/-- An authorize response item: connector approved pre-auth 42. -/
def authRespItem :
    ResponseRouterData HelcimPaymentsResponse PaymentsAuthorizeData PaymentsResponseData :=
  { response := { status := .Approved, transaction_id := 42, transaction_type := .PreAuth }
    data := mkRouterData
      { payment_method_data := .Card sampleCard
        amount := 100
        currency := .USD
        email := none
        browser_info := some sampleBrowserInfo }
    http_code := 200 }

/-- C10 witness: the frame theorem applied to the concrete authorize
response item. -/
theorem response_transformers_preserve_frame_witness :
    ({ authRespItem.data with
        response := Except.ok (.TransactionResponse
          (.ConnectorTransactionId "42") none none none none none)
        status := .Authorized } :
          RouterData PaymentsAuthorizeData PaymentsResponseData).frame =
      authRespItem.data.frame :=
  response_transformers_preserve_frame.1 authRespItem _ rfl

end Hyperswitch
